import Mathlib

/-!
Verification development for the NebulaTerm AI core (a Tauri/React SSH
terminal client with a multi-provider AI gateway).

The development shallowly embeds, from the TypeScript/TSX sources:

* the runtime JSON/JS value model used by the AI response normalizer
  (`services/aiService.ts`, function `callOllama`), including a JSON parser
  modelling `JSON.parse` and the specific regular-expression extractions used
  by the normalizer's fallback chain;
* the AI gateway entry points `askAI` and `autoCorrectAI`
  (`services/aiService.ts`), with the behaviour of the per-provider adapter
  call abstracted as a `ProviderOutcome` oracle and the transport (fetch/SDK)
  calls made by the gateway recorded in a trace;
* the per-tab connection state machine of `components/Terminal.tsx`
  (status, the `isConnectingRef` re-entrancy latch, the `pty-disconnect`
  listener, and the `[server]` effect's cleanup closure with the render-time
  values it captures);
* the session registry of `App.tsx` (`handleSelectServer`,
  `handleCloseSession`, tab selection via `TabBar`).
-/

/-! ## JavaScript runtime values

`JsVal` models the values produced by `JSON.parse` plus `undefined` (the
result of reading an absent property).  JSON numbers are modelled as
integers; fractional/exponent literals are not modelled (no reply analysed
below contains one — see `parseNum`). -/

inductive JsVal where
  | undefinedV
  | jnull
  | jbool (b : Bool)
  | jnum (n : Int)
  | jstr (s : String)
  | jarr (elems : List JsVal)
  | jobj (fields : List (String × JsVal))
/-- `v !== undefined`. -/
def JsVal.isDefined : JsVal → Bool
  | .undefinedV => false
  | _ => true

/-- JavaScript truthiness: `undefined`, `null`, `false`, `0`, and `""` are
falsy; every other value (including empty arrays and objects) is truthy. -/
def jsTruthy : JsVal → Bool
  | .undefinedV => false
  | .jnull => false
  | .jbool b => b
  | .jnum n => n != 0
  | .jstr s => s != ""
  | .jarr _ => true
  | .jobj _ => true

/-- JavaScript property read `v[k]`: throws a `TypeError` on `null` or
`undefined` (modelled as `none`); yields `undefined` on other primitives and
arrays; looks the key up on objects (for duplicate keys `JSON.parse` keeps
the last occurrence, hence the reversed search). -/
def jsGetField : JsVal → String → Option JsVal
  | .undefinedV, _ => none
  | .jnull, _ => none
  | .jobj fields, k =>
    match fields.reverse.find? (fun f => f.1 == k) with
    | some f => some f.2
    | none => some .undefinedV
  | _, _ => some .undefinedV

/-! ## Character-list string utilities

All string processing in the embedded code is done on `List Char`, with
`String` only at the API boundary, mirroring the JavaScript string methods
used by `aiService.ts`. -/

/-- Whitespace accepted by `JSON.parse` between tokens. -/
def isJsonWs (c : Char) : Bool :=
  c = ' ' || c = '\t' || c = '\n' || c = '\r'

/-- Whitespace matched by the regex class `\s` (ASCII part; the Unicode
space characters also matched by `\s` do not occur in any analysed reply). -/
def isRegexWs (c : Char) : Bool :=
  c = ' ' || c = '\t' || c = '\n' || c = '\r' || c = '\x0b' || c = '\x0c'

/-- Whitespace stripped by JavaScript `String.prototype.trim` (ASCII part). -/
def isTrimWs (c : Char) : Bool :=
  isRegexWs c

def skipWs (l : List Char) : List Char :=
  l.dropWhile isJsonWs

/-- `String.prototype.trim`: strip leading and trailing whitespace. -/
def trimChars (l : List Char) : List Char :=
  ((l.dropWhile isTrimWs).reverse.dropWhile isTrimWs).reverse

/-- `pat` occurs at the head of `l`. -/
def prefixMatches : List Char → List Char → Bool
  | _, [] => true
  | [], _ :: _ => false
  | c :: cs, p :: ps => c = p && prefixMatches cs ps

/-- Index of the first occurrence of `pat` in `l` (`none` if absent). -/
def findSubstrIdx (pat : List Char) : List Char → Option Nat
  | [] => if prefixMatches [] pat then some 0 else none
  | c :: rest =>
    if prefixMatches (c :: rest) pat then some 0
    else (findSubstrIdx pat rest).map (· + 1)

/-- `pat` occurs somewhere in `s` (used to state "the markdown contains
…"). -/
def containsSub (s pat : String) : Bool :=
  (findSubstrIdx pat.data s.data).isSome

/-- Recursion core of `removeAll`; `fuel` bounds the number of steps (each
step shortens the text by at least one character, so `l.length` steps
always suffice). -/
def removeAllAux : Nat → List Char → List Char → List Char
  | 0, l, _ => l
  | _ + 1, [], _ => []
  | fuel + 1, c :: rest, pat =>
    if pat ≠ [] ∧ prefixMatches (c :: rest) pat = true then
      removeAllAux fuel ((c :: rest).drop pat.length) pat
    else
      c :: removeAllAux fuel rest pat

/-- `s.replace(pat, '')` with a global literal pattern: delete every
occurrence of `pat`, scanning left to right without rescanning the spliced
text (the semantics of a JavaScript global regex replace). -/
def removeAll (l : List Char) (pat : List Char) : List Char :=
  removeAllAux l.length l pat

/-! ## `JSON.parse`

A model of `JSON.parse` sufficient for the replies analysed below.
Fractional and exponent number literals are not modelled (`parseNum`
rejects them; no analysed reply contains one); `\u` escapes decode to the
corresponding scalar value without surrogate pairing. -/

def hexVal (c : Char) : Option Nat :=
  if '0' ≤ c ∧ c ≤ '9' then some (c.toNat - '0'.toNat)
  else if 'a' ≤ c ∧ c ≤ 'f' then some (c.toNat - 'a'.toNat + 10)
  else if 'A' ≤ c ∧ c ≤ 'F' then some (c.toNat - 'A'.toNat + 10)
  else none

/-- Parse the body of a JSON string literal (the opening quote already
consumed), returning the decoded text and the rest of the input.  Raw
control characters and invalid escapes are syntax errors, as in JSON. -/
def parseStringLit : List Char → Option (String × List Char)
  | [] => none
  | '"' :: rest => some ("", rest)
  | '\\' :: 'u' :: h1 :: h2 :: h3 :: h4 :: rest =>
    match hexVal h1, hexVal h2, hexVal h3, hexVal h4 with
    | some a, some b, some c, some d =>
      (parseStringLit rest).map (fun p =>
        (⟨Char.ofNat (((a * 16 + b) * 16 + c) * 16 + d) :: p.1.data⟩, p.2))
    | _, _, _, _ => none
  | '\\' :: e :: rest =>
    let dec : Option Char :=
      if e = '"' then some '"'
      else if e = '\\' then some '\\'
      else if e = '/' then some '/'
      else if e = 'b' then some '\x08'
      else if e = 'f' then some '\x0c'
      else if e = 'n' then some '\n'
      else if e = 'r' then some '\r'
      else if e = 't' then some '\t'
      else none
    match dec with
    | some c => (parseStringLit rest).map (fun p => (⟨c :: p.1.data⟩, p.2))
    | none => none
  | c :: rest =>
    if c.toNat < 0x20 then none
    else (parseStringLit rest).map (fun p => (⟨c :: p.1.data⟩, p.2))

def isDigitChar (c : Char) : Bool := '0' ≤ c && c ≤ '9'

def digitsToNat (acc : Nat) : List Char → Nat
  | [] => acc
  | c :: rest => digitsToNat (acc * 10 + (c.toNat - '0'.toNat)) rest

/-- Parse an unsigned JSON integer `0|[1-9][0-9]*`.  A following `.` or
exponent marker makes the parse fail where real `JSON.parse` would read a
fractional value (no analysed reply contains one). -/
def parseDigits (l : List Char) : Option (Int × List Char) :=
  let ds := l.takeWhile isDigitChar
  let rest := l.dropWhile isDigitChar
  if ds = [] then none
  else if ds.length > 1 ∧ ds.headI = '0' then none
  else match rest with
    | '.' :: _ => none
    | 'e' :: _ => none
    | 'E' :: _ => none
    | _ => some (Int.ofNat (digitsToNat 0 ds), rest)

/-- Parse a JSON number (integer forms only, see `parseDigits`). -/
def parseNum : List Char → Option (JsVal × List Char)
  | '-' :: rest => (parseDigits rest).map (fun p => (.jnum (-p.1), p.2))
  | l => (parseDigits l).map (fun p => (.jnum p.1, p.2))

mutual

/-- `JSON.parse` value parser; `fuel` bounds the nesting depth (the entry
point `jsonParse` supplies more fuel than any input can consume). -/
def parseVal : Nat → List Char → Option (JsVal × List Char)
  | 0, _ => none
  | _ + 1, [] => none
  | fuel + 1, c :: rest =>
    if c = '{' then
      match skipWs rest with
      | '}' :: rest2 => some (.jobj [], rest2)
      | l2 => parseObjRest fuel l2 []
    else if c = '[' then
      match skipWs rest with
      | ']' :: rest2 => some (.jarr [], rest2)
      | l2 => parseArrRest fuel l2 []
    else if c = '"' then
      (parseStringLit rest).map (fun p => (.jstr p.1, p.2))
    else if prefixMatches (c :: rest) ['t', 'r', 'u', 'e'] then
      some (.jbool true, (c :: rest).drop 4)
    else if prefixMatches (c :: rest) ['f', 'a', 'l', 's', 'e'] then
      some (.jbool false, (c :: rest).drop 5)
    else if prefixMatches (c :: rest) ['n', 'u', 'l', 'l'] then
      some (.jnull, (c :: rest).drop 4)
    else
      parseNum (c :: rest)

/-- Members of a JSON object after `{` (positioned at a key, leading
whitespace already skipped). -/
def parseObjRest : Nat → List Char → List (String × JsVal) →
    Option (JsVal × List Char)
  | 0, _, _ => none
  | fuel + 1, l, acc =>
    match l with
    | '"' :: rest =>
      match parseStringLit rest with
      | none => none
      | some (key, rest2) =>
        match skipWs rest2 with
        | ':' :: rest3 =>
          match parseVal fuel (skipWs rest3) with
          | none => none
          | some (v, rest4) =>
            match skipWs rest4 with
            | ',' :: rest5 => parseObjRest fuel (skipWs rest5) (acc ++ [(key, v)])
            | '}' :: rest5 => some (.jobj (acc ++ [(key, v)]), rest5)
            | _ => none
        | _ => none
    | _ => none

/-- Elements of a JSON array after `[` (positioned at a value). -/
def parseArrRest : Nat → List Char → List JsVal → Option (JsVal × List Char)
  | 0, _, _ => none
  | fuel + 1, l, acc =>
    match parseVal fuel l with
    | none => none
    | some (v, rest) =>
      match skipWs rest with
      | ',' :: rest2 => parseArrRest fuel (skipWs rest2) (acc ++ [v])
      | ']' :: rest2 => some (.jarr (acc ++ [v]), rest2)
      | _ => none

end

/-- `JSON.parse(s)`: parse one JSON value and require only whitespace after
it; `none` models a thrown `SyntaxError`. -/
def jsonParse (l : List Char) : Option JsVal :=
  match parseVal (l.length + 1) (skipWs l) with
  | some (v, rest) => if skipWs rest = [] then some v else none
  | none => none

/-! ## The AI response shape and the Ollama normalizer

`services/aiService.ts`.  `AIResponse` is `{ markdown: string,
suggestedCommand?: string }` in TypeScript; at runtime the fields hold
whatever `JSON.parse` produced, so they are modelled as `JsVal`
(`JsVal.undefinedV` = the field is absent). -/

structure AIResponse where
  markdown : JsVal
  suggestedCommand : JsVal

/-- `{ enabled, apiKey, baseUrl?, model }` (`types.ts`,
`AIProviderConfig`). -/
structure AIProviderConfig where
  enabled : Bool
  apiKey : String
  baseUrl : Option String
  model : String
deriving Repr, DecidableEq

/-- Result of a JavaScript computation that may throw: `thrown msg` models
an exception with message `msg` escaping to the caller. -/
inductive JsResult (α : Type) where
  | ok (a : α)
  | thrown (msg : String)

def JsResult.isOk : JsResult α → Bool
  | .ok _ => true
  | .thrown _ => false

/-- The regex `/```(?:json)?\s*\n?([\s\S]*?)\n?```/` applied to the reply
(strategy 2 of `callOllama`), returning the first capture group.  After the
leftmost fence, the optional `json` tag and the greedy `\s*` are consumed
(the following `\n?` is then necessarily empty, since `\s` covers `\n`);
the lazy body ends at the earliest closing fence, with one directly
preceding newline attributed to the closing `\n?` rather than the group. -/
def codeBlockMatch (l : List Char) : Option (List Char) :=
  match findSubstrIdx ['`', '`', '`'] l with
  | none => none
  | some i =>
    let after0 := l.drop (i + 3)
    let after1 := if prefixMatches after0 ['j', 's', 'o', 'n'] then after0.drop 4 else after0
    let body := after1.dropWhile isRegexWs
    match findSubstrIdx ['`', '`', '`'] body with
    | none => none
    | some q =>
      if q > 0 ∧ body.get? (q - 1) = some '\n' then some (body.take (q - 1))
      else some (body.take q)

/-- The regex `/\{[\s\S]*?"markdown"[\s\S]*?\}/` applied to the reply
(strategy 3 of `callOllama`), returning the whole match: the span from the
first `{` through the first `}` that follows the first occurrence of
`"markdown"` after that `{`.  (If the first `{` admits no such span, no
later `{` can, so the leftmost-match search reduces to this.) -/
def markdownSpanMatch (l : List Char) : Option (List Char) :=
  match findSubstrIdx ['{'] l with
  | none => none
  | some i =>
    let afterBrace := l.drop (i + 1)
    match findSubstrIdx ['"', 'm', 'a', 'r', 'k', 'd', 'o', 'w', 'n', '"'] afterBrace with
    | none => none
    | some j =>
      let afterKey := afterBrace.drop (j + 10)
      match findSubstrIdx ['}'] afterKey with
      | none => none
      | some k => some ('{' :: afterBrace.take (j + 10 + k) ++ ['}'])

/-- The validation shared by strategies 1-3 of `callOllama`:

```
const parsed = JSON.parse(text);
if (parsed.markdown || parsed.suggestedCommand !== undefined) {
  return { markdown: parsed.markdown || '', suggestedCommand: parsed.suggestedCommand };
}
```

A parse failure, a property read throwing (`parsed` null), or a failed
check all fall through (`none`) to the next strategy. -/
def validateParsed : Option JsVal → Option AIResponse
  | none => none
  | some parsed =>
    match jsGetField parsed "markdown", jsGetField parsed "suggestedCommand" with
    | some m, some sc =>
      if jsTruthy m || sc.isDefined then
        some { markdown := if jsTruthy m then m else .jstr "", suggestedCommand := sc }
      else none
    | _, _ => none

/-- `responseText.replace(/^.*?(?=\{|[A-Za-z])/s, '')`: delete the shortest
prefix up to (not including) the first `{` or ASCII letter; if the string
contains neither, the regex does not match and nothing is deleted. -/
def isAsciiAlpha (c : Char) : Bool :=
  ('A' ≤ c && c ≤ 'Z') || ('a' ≤ c && c ≤ 'z')

def stripLeadingProse (l : List Char) : List Char :=
  match l.findIdx? (fun c => c = '{' || isAsciiAlpha c) with
  | some i => l.drop i
  | none => l

/-- The final fallback of `callOllama`: strip leading prose and residual
code-fence markers and return the cleaned text as `markdown`
(`cleanResponse || responseText`), with no `suggestedCommand`. -/
def ollamaFallback (responseText : List Char) : AIResponse :=
  let cleanResponse :=
    trimChars (removeAll (removeAll (stripLeadingProse responseText)
      ['`', '`', '`', 'j', 's', 'o', 'n']) ['`', '`', '`'])
  { markdown := .jstr ⟨if cleanResponse = [] then responseText else cleanResponse⟩
    suggestedCommand := .undefinedV }

/-- The behaviour of the one `fetch` call made by `callOllama`. -/
inductive OllamaFetch where
  /-- the fetch promise rejected (network-level failure) with this message -/
  | throwErr (msg : String)
  /-- an HTTP reply: `ok`/`status`/`statusText`, and the `response` field of
  the JSON body (the empty string also models an absent field: both are
  falsy in the guard) -/
  | resp (ok : Bool) (status : Nat) (statusText : String) (response : String)

/-- `(config.baseUrl || 'http://localhost:11434').replace(/\/$/, '') +
'/api/generate'` — the URL `callOllama` posts to.  It does not affect the
returned value given the fetch behaviour, and is kept as a separate
definition. -/
def ollamaRequestUrl (config : AIProviderConfig) : String :=
  let base :=
    match config.baseUrl with
    | some s => if s = "" then "http://localhost:11434" else s
    | none => "http://localhost:11434"
  let stripped : List Char :=
    match base.data.reverse with
    | '/' :: t => t.reverse
    | _ => base.data
  ⟨stripped⟩ ++ "/api/generate"

/-- `callOllama(prompt, config)` from `services/aiService.ts`, as a function
of the fetch behaviour.  The outbound request body (enhanced prompt, model,
options) does not influence the returned value and is not modelled. -/
def callOllama (prompt : String) (config : AIProviderConfig)
    (f : OllamaFetch) : JsResult AIResponse :=
  match f with
  | .throwErr m => .thrown m
  | .resp ok status statusText response =>
    if !ok then
      .thrown ("Ollama connection failed: " ++ toString status ++ " " ++ statusText)
    else if response = "" || (⟨trimChars response.data⟩ : String) = "" then
      .thrown "Ollama returned an empty response. Make sure the model is downloaded and running."
    else
      let responseText := trimChars response.data
      match validateParsed (jsonParse responseText) with
      | some r => .ok r
      | none =>
        match (codeBlockMatch responseText).bind
            (fun g => validateParsed (jsonParse (trimChars g))) with
        | some r => .ok r
        | none =>
          match (markdownSpanMatch responseText).bind
              (fun g => validateParsed (jsonParse g)) with
          | some r => .ok r
          | none => .ok (ollamaFallback responseText)

/-! ## The AI gateway: `askAI` and `autoCorrectAI`

Both entry points select the active provider's adapter in a `switch`, await
one adapter call inside `try`, and convert a thrown error in a `catch`.
The adapter call itself (`callGemini` / `callOpenAICompatible` /
`callAnthropic` / `callOllama` / `callOpenRouter`) either resolves to a
normalized `AIResponse` or throws; that behaviour is abstracted as a
`ProviderOutcome` oracle, and the transport calls the gateway causes are
recorded in a trace (`net` holds the provider identifiers whose
fetch/SDK transport was invoked). -/

/-- What the selected provider adapter's one transport call does, as
observed at the gateway's `await`. -/
inductive ProviderOutcome where
  | ok (r : AIResponse)
  | throwMsg (msg : String)

structure GatewayResult where
  result : JsResult AIResponse
  net : List String

/-- One arm of the gateway's `switch`: calling the selected adapter.  Every
adapter first reads fields off `providerConfig` (`providerConfig.apiKey`,
`config.baseUrl`, …) — with an `undefined` config this throws a `TypeError`
before any transport call — and then performs exactly one transport call
whose observed behaviour is `outcome`. -/
def providerCall (providerName : String) (config : Option AIProviderConfig)
    (outcome : ProviderOutcome) : GatewayResult :=
  match config with
  | none =>
    { result := .thrown "Cannot read properties of undefined", net := [] }
  | some _ =>
    match outcome with
    | .ok r => { result := .ok r, net := [providerName] }
    | .throwMsg m => { result := .thrown m, net := [providerName] }

/-- A `try { … } catch (error) { return handler(error) }` around a gateway
dispatch: a thrown error is converted into an ordinary return value. -/
def jsCatch (r : GatewayResult) (handler : String → AIResponse) : GatewayResult :=
  match r.result with
  | .ok _ => r
  | .thrown m => { result := .ok (handler m), net := r.net }

/-- `error.message || 'Unknown error'`. -/
def errMessage (m : String) : String :=
  if m = "" then "Unknown error" else m

/-- `providers[activeProvider]` — property lookup on the settings record
(`undefined` when the key is absent, as for an unknown provider). -/
def lookupProvider (ps : List (String × AIProviderConfig)) (k : String) :
    Option AIProviderConfig :=
  match ps.find? (fun p => p.1 == k) with
  | some p => some p.2
  | none => none

/-- `{ activeProvider, providers }` (`types.ts`, `AppSettings`); the
`providers` record is modelled as an association list. -/
structure AppSettings where
  activeProvider : String
  providers : List (String × AIProviderConfig)
deriving Repr, DecidableEq

def configErrorMarkdown (activeProvider : String) : String :=
  "Configuration Error: Missing API Key for " ++ activeProvider ++ ". Please check Settings."

/-- The prompt template of `askAI`. -/
def askPrompt (query historyContext : String) : String :=
  "\n    Terminal Context (Last few lines):\n    " ++ historyContext ++
    "\n    \n    User Query:\n    " ++ query ++ "\n  "

/-- `askAI(query, historyContext, settings)` from `services/aiService.ts`:

```
const providerConfig = settings.providers[settings.activeProvider];
if (!providerConfig || (!providerConfig.apiKey && settings.activeProvider !== 'ollama')) {
  return { markdown: `Configuration Error: Missing API Key for ...` };
}
const prompt = `...`;
try {
  switch (settings.activeProvider) {
    case 'gemini': return await callGemini(prompt, providerConfig.apiKey, providerConfig.model);
    case 'openai': case 'grok': return await callOpenAICompatible(prompt, providerConfig, settings.activeProvider);
    case 'anthropic': return await callAnthropic(prompt, providerConfig);
    case 'ollama': return await callOllama(prompt, providerConfig);
    case 'openrouter': return await callOpenRouter(prompt, providerConfig);
    default: return { markdown: "Unknown provider selected." };
  }
} catch (error) {
  return { markdown: `Error connecting to ${settings.activeProvider}: ${error.message || 'Unknown error'}` };
}
```
-/
def askAI (query historyContext : String) (settings : AppSettings)
    (outcome : ProviderOutcome) : GatewayResult :=
  let providerConfig := lookupProvider settings.providers settings.activeProvider
  if providerConfig.isNone ||
      (!jsTruthy (.jstr ((providerConfig.map AIProviderConfig.apiKey).getD "")) &&
        settings.activeProvider != "ollama") then
    { result := .ok { markdown := .jstr (configErrorMarkdown settings.activeProvider)
                      suggestedCommand := .undefinedV }
      net := [] }
  else
    let prompt := askPrompt query historyContext
    let dispatched :=
      match settings.activeProvider with
      | "gemini" => providerCall "gemini" providerConfig outcome
      | "openai" => providerCall settings.activeProvider providerConfig outcome
      | "grok" => providerCall settings.activeProvider providerConfig outcome
      | "anthropic" => providerCall "anthropic" providerConfig outcome
      | "ollama" => providerCall "ollama" providerConfig outcome
      | "openrouter" => providerCall "openrouter" providerConfig outcome
      | _ =>
        { result := .ok { markdown := .jstr "Unknown provider selected."
                          suggestedCommand := .undefinedV }
          net := [] }
    jsCatch dispatched (fun e =>
      { markdown := .jstr ("Error connecting to " ++ settings.activeProvider ++ ": " ++ errMessage e)
        suggestedCommand := .undefinedV })

/-- `autoCorrectAI(command, settings)` from `services/aiService.ts`: no
credential precondition; the same `switch` (with default
`{ markdown: "Unknown provider." }`), and a `catch` returning
`{ markdown: "Unable to analyze command.", suggestedCommand: command }`. -/
def autoCorrectAI (command : String) (settings : AppSettings)
    (outcome : ProviderOutcome) : GatewayResult :=
  let providerConfig := lookupProvider settings.providers settings.activeProvider
  let prompt := "The user typed: \"" ++ command ++
    "\". If it has a syntax error, fix it. If valid, explain it. Return JSON with \"markdown\" and \"suggestedCommand\"."
  let dispatched :=
    match settings.activeProvider with
    | "gemini" => providerCall "gemini" providerConfig outcome
    | "openai" => providerCall settings.activeProvider providerConfig outcome
    | "grok" => providerCall settings.activeProvider providerConfig outcome
    | "anthropic" => providerCall "anthropic" providerConfig outcome
    | "ollama" => providerCall "ollama" providerConfig outcome
    | "openrouter" => providerCall "openrouter" providerConfig outcome
    | _ =>
      { result := .ok { markdown := .jstr "Unknown provider."
                        suggestedCommand := .undefinedV }
        net := [] }
  jsCatch dispatched (fun _ =>
    { markdown := .jstr "Unable to analyze command."
      suggestedCommand := .jstr command })

/-- The provider identifiers handled by the gateway's `switch`. -/
def knownProviderIds : List String :=
  ["gemini", "openai", "grok", "anthropic", "ollama", "openrouter"]

/-- The `mockSettings` fixture of `tests/aiService.test.ts`. -/
def mockSettings : AppSettings :=
  { activeProvider := "gemini"
    providers :=
      [("gemini", { enabled := true, apiKey := "test-api-key", baseUrl := none
                    model := "gemini-2.5-flash" }),
       ("openai", { enabled := true, apiKey := "", baseUrl := none
                    model := "gpt-4-turbo-preview" }),
       ("grok", { enabled := true, apiKey := "", baseUrl := none
                  model := "grok-beta" }),
       ("anthropic", { enabled := true, apiKey := "", baseUrl := none
                       model := "claude-3-sonnet-20240229" }),
       ("ollama", { enabled := true, apiKey := "", baseUrl := some "http://localhost:11434"
                    model := "llama3" }),
       ("openrouter", { enabled := true, apiKey := "", baseUrl := none
                        model := "openai/gpt-3.5-turbo" })] }

/-! ## The per-tab connection state machine (`components/Terminal.tsx`)

The model captures the component state relevant to the connection
lifecycle: the `status` and `sessionId` React state, the synchronous
`isConnectingRef` latch, the in-flight connect attempt, the cleanup
function registered by the `[server]` effect, and the trace of transport
(`invoke`) calls issued so far.

React semantics embedded here:

* the `[server]` effect body runs at mount and again whenever the `server`
  prop changes; before a re-run, the previously registered cleanup (if any)
  is executed;
* the cleanup closure returned by the effect body captures the *render-time*
  values of the `status` and `sessionId` state variables — the values they
  had when the effect ran — not the current ones (the component keeps
  `statusRef`/`sessionIdRef` for escaping this staleness elsewhere, but the
  cleanup reads the plain state variables);
* when the effect body early-returns (latch already set), no cleanup is
  registered;
* `setStatus`/`setSessionId` inside `connectToServer` run synchronously up
  to the first `await`, so a connect trigger atomically sets the latch,
  `CONNECTING`, the fresh session id, and issues the `pty_connect` /
  `pty_connect_local` call; the `await`'s continuation later sets
  `CONNECTED` (then fits and issues `pty_resize`) or `ERROR`. -/

inductive ConnectionStatus where
  | DISCONNECTED
  | CONNECTING
  | CONNECTED
  | ERROR
deriving Repr, DecidableEq

inductive TransportCall where
  | ptyConnect (sessionId : String)
  | ptyConnectLocal (sessionId : String)
  | ptyResize (sessionId : String)
  | ptyDisconnect (sessionId : String)
deriving Repr, DecidableEq

/-- The cleanup closure returned by the `[server]` effect, with the
render-time `status` and `sessionId` it captured:

```
return () => {
  if (status === ConnectionStatus.CONNECTED && sessionId) {
    invoke('pty_disconnect', { sessionId }).catch(console.error);
  }
};
```
-/
structure CleanupClosure where
  status : ConnectionStatus
  sessionId : Option String
deriving Repr, DecidableEq

/-- Transport calls issued by running a registered cleanup (the
`.catch(console.error)` swallows a failure of the call, so running a
cleanup never throws). -/
def runCleanup : Option CleanupClosure → List TransportCall
  | none => []
  | some c =>
    match c.status, c.sessionId with
    | .CONNECTED, some sid => [.ptyDisconnect sid]
    | _, _ => []

structure TermState where
  status : ConnectionStatus
  sessionId : Option String
  isConnectingRef : Bool
  /-- `some newSessionId` while a `pty_connect`/`pty_connect_local` promise
  is outstanding (the `newSessionId` local captured by its continuation). -/
  pendingConnect : Option String
  /-- the cleanup registered by the last `[server]` effect run, if any -/
  registeredCleanup : Option CleanupClosure
  /-- trace of `invoke` transport calls issued so far -/
  calls : List TransportCall
deriving Repr, DecidableEq

/-- Mounted component before the `[server]` effect runs: `useState`
initials `DISCONNECTED` / `null`, latch `false`. -/
def initTermState : TermState :=
  { status := .DISCONNECTED
    sessionId := none
    isConnectingRef := false
    pendingConnect := none
    registeredCleanup := none
    calls := [] }

inductive TermEvent where
  /-- the `[server]` effect fires with a non-null `server` (local iff
  `isLocal`) and a ready terminal; `newSessionId` models
  `crypto.randomUUID()` -/
  | connectTrigger (isLocal : Bool) (newSessionId : String)
  /-- the awaited `pty_connect`/`pty_connect_local` promise settles
  (`ok = false`: it rejected) -/
  | connectResolve (ok : Bool)
  /-- a `pty-disconnect` event with payload `session_id = sid` -/
  | ptyDisconnectEvent (sid : String)
  /-- the component is torn down (tab closed): React runs the registered
  cleanup -/
  | unmount
deriving Repr, DecidableEq

def step (s : TermState) : TermEvent → TermState
  | .connectTrigger isLocal newId =>
    -- re-running the effect first executes the previously registered cleanup
    let s0 := { s with calls := s.calls ++ runCleanup s.registeredCleanup
                       registeredCleanup := none }
    if s0.isConnectingRef then
      s0   -- `if (isConnectingRef.current) return;` — no cleanup registered
    else
      { s0 with
          isConnectingRef := true
          status := .CONNECTING
          sessionId := some newId
          pendingConnect := some newId
          calls := s0.calls ++
            [if isLocal then .ptyConnectLocal newId else .ptyConnect newId]
          -- the returned closure captures this render's `status`/`sessionId`
          registeredCleanup := some { status := s.status, sessionId := s.sessionId } }
  | .connectResolve ok =>
    match s.pendingConnect with
    | none => s
    | some newId =>
      if ok then
        -- `setStatus(CONNECTED)`, then fit and fire-and-forget `pty_resize`
        { s with pendingConnect := none
                 status := .CONNECTED
                 calls := s.calls ++ [.ptyResize newId] }
      else
        { s with pendingConnect := none, status := .ERROR }
  | .ptyDisconnectEvent sid =>
    -- the listener exists only once `sessionId` is non-null and compares
    -- `payload.session_id === sessionId`
    match s.sessionId with
    | some cur => if sid = cur then { s with status := .ERROR } else s
    | none => s
  | .unmount =>
    { s with calls := s.calls ++ runCleanup s.registeredCleanup
             registeredCleanup := none }

def runTerm (s : TermState) (evs : List TermEvent) : TermState :=
  evs.foldl step s

def TransportCall.isConnectCall : TransportCall → Bool
  | .ptyConnect _ => true
  | .ptyConnectLocal _ => true
  | _ => false

/-- Number of transport connect calls in a trace. -/
def countConnects : List TransportCall → Nat
  | [] => 0
  | c :: rest => (if c.isConnectCall then 1 else 0) + countConnects rest

/-! ## The session registry (`App.tsx`)

`handleSelectServer` opens a tab, `handleCloseSession` closes one, and the
`TabBar` selects one (`onSelectSession={setActiveSessionId}`, invoked only
with the id of a rendered session). -/

/-- The fields of `Server` (`types.ts`) used by the registry handlers; the
connection-only fields (host, port, credentials, …) are omitted. -/
structure Server where
  id : String
  name : String
  isLocal : Bool
deriving Repr, DecidableEq

/-- `Session` (`types.ts`). -/
structure Session where
  id : String
  serverId : String
  name : String
  color : String
  /-- full server object stored for local terminals, `undefined` otherwise -/
  server : Option Server
deriving Repr, DecidableEq

def SESSION_COLORS : List String :=
  ["#3b82f6", "#10b981", "#f59e0b", "#ef4444", "#8b5cf6", "#ec4899", "#06b6d4"]

structure AppState where
  sessions : List Session
  activeSessionId : Option String
deriving Repr, DecidableEq

/-- `useState` initials: no sessions, no active session. -/
def initAppState : AppState :=
  { sessions := [], activeSessionId := none }

/-- `handleSelectServer` (`App.tsx`); `newSessionId` models
`crypto.randomUUID()`. -/
def handleSelectServer (st : AppState) (server : Server)
    (newSessionId : String) : AppState :=
  let color := SESSION_COLORS.getD (st.sessions.length % SESSION_COLORS.length) ""
  let newSession : Session :=
    { id := newSessionId
      serverId := server.id
      name := server.name
      color := color
      server := if server.isLocal then some server else none }
  { sessions := st.sessions ++ [newSession]
    activeSessionId := some newSessionId }

/-- `handleCloseSession` (`App.tsx`).  `newSessions[Math.max(0, idx - 1)]`
is modelled with truncated `Nat` subtraction (`idx - 1`), which agrees with
`Math.max(0, idx - 1)`; an out-of-range index (not reachable: the `idx`
sessions before the closed one survive the filter) yields `none` where
JavaScript would throw on `.id`. -/
def handleCloseSession (st : AppState) (id : String) : AppState :=
  match st.sessions.findIdx? (fun s => s.id == id) with
  | none => st   -- `if (idx === -1) return;`
  | some idx =>
    let newSessions := st.sessions.filter (fun s => s.id != id)
    let active :=
      if st.activeSessionId = some id then
        if newSessions.length > 0 then
          match newSessions.get? (idx - 1) with
          | some s => some s.id
          | none => none
        else none
      else st.activeSessionId
    { sessions := newSessions, activeSessionId := active }

/-- `onSelectSession={setActiveSessionId}` — the TabBar click handler. -/
def handleSelectSession (st : AppState) (id : String) : AppState :=
  { st with activeSessionId := some id }

inductive RegistryEvent where
  | selectServer (server : Server) (newSessionId : String)
  | close (id : String)
  | select (id : String)
deriving Repr, DecidableEq

def stepApp (st : AppState) : RegistryEvent → AppState
  | .selectServer server newId => handleSelectServer st server newId
  | .close id => handleCloseSession st id
  | .select id => handleSelectSession st id

def runApp (st : AppState) (evs : List RegistryEvent) : AppState :=
  evs.foldl stepApp st

/-- UI-realisable event sequences: the `TabBar` only fires `onSelectSession`
with the id of a session it renders, i.e. one present in the list at that
moment (open and close are unconstrained). -/
def validEvents : AppState → List RegistryEvent → Bool
  | _, [] => true
  | st, e :: rest =>
    (match e with
     | .select id => st.sessions.any (fun s => s.id == id)
     | _ => true) && validEvents (stepApp st e) rest

/-- The registry pointer invariant: `activeSessionId` is `null` or the id of
a session currently in the list. -/
def activeOk (st : AppState) : Bool :=
  match st.activeSessionId with
  | none => true
  | some a => st.sessions.any (fun s => s.id == a)

/-! ## Helper lemmas -/

theorem countConnects_append (a b : List TransportCall) :
    countConnects (a ++ b) = countConnects a + countConnects b := by
  induction a with
  | nil => simp [countConnects]
  | cons c rest ih => simp [countConnects, ih]; omega

theorem countConnects_runCleanup (c : Option CleanupClosure) :
    countConnects (runCleanup c) = 0 := by
  match c with
  | none => rfl
  | some cl =>
    unfold runCleanup
    rcases cl with ⟨st, sid⟩
    cases st <;> cases sid <;>
      simp [countConnects, TransportCall.isConnectCall]

/-! ## Claims about the connection state machine -/

/-- Claim C4: the per-session connection state machine starts at
`DISCONNECTED`; a connect trigger moves it to `CONNECTING`; resolution of
the transport connect call moves it to `CONNECTED` on success and `ERROR`
on rejection; from `CONNECTED` a `pty-disconnect` event carrying this
session's id moves it to `ERROR`, while an event carrying any other
session id leaves the status unchanged. -/
theorem connection_state_machine_transitions :
    initTermState.status = .DISCONNECTED ∧
    (∀ (s : TermState) (isLocal : Bool) (newId : String),
      s.isConnectingRef = false →
      (step s (.connectTrigger isLocal newId)).status = .CONNECTING) ∧
    (∀ (s : TermState) (isLocal : Bool) (newId : String),
      s.isConnectingRef = false →
      (runTerm s [.connectTrigger isLocal newId, .connectResolve true]).status = .CONNECTED) ∧
    (∀ (s : TermState) (isLocal : Bool) (newId : String),
      s.isConnectingRef = false →
      (runTerm s [.connectTrigger isLocal newId, .connectResolve false]).status = .ERROR) ∧
    (∀ (s : TermState) (sid : String),
      s.status = .CONNECTED → s.sessionId = some sid →
      (step s (.ptyDisconnectEvent sid)).status = .ERROR) ∧
    (∀ (s : TermState) (sid other : String),
      s.sessionId = some sid → other ≠ sid →
      (step s (.ptyDisconnectEvent other)).status = s.status) := by
  refine ⟨rfl, ?_, ?_, ?_, ?_, ?_⟩
  · intro s isLocal newId h
    simp [step, h]
  · intro s isLocal newId h
    simp [runTerm, step, h]
  · intro s isLocal newId h
    simp [runTerm, step, h]
  · intro s sid h1 h2
    simp [step, h2]
  · intro s sid other h1 h2
    simp [step, h1, h2]

theorem connection_state_machine_transitions_witness :
    (runTerm initTermState [.connectTrigger false "s1", .connectResolve true]).status
      = .CONNECTED :=
  connection_state_machine_transitions.2.2.1 initTermState false "s1" rfl

/-- Claim C5: two connect triggers for the same Terminal in immediate
succession issue exactly one transport connect call: the `isConnectingRef`
latch is set synchronously before any asynchronous work, so the second
trigger returns without starting a connect attempt. -/
theorem duplicate_trigger_single_connect_call :
    ∀ (s : TermState) (l1 l2 : Bool) (id1 id2 : String),
      s.isConnectingRef = false →
      countConnects (runTerm s [.connectTrigger l1 id1, .connectTrigger l2 id2]).calls
        = countConnects s.calls + 1 := by
  intro s l1 l2 id1 id2 h
  simp [runTerm, step, h, countConnects_append, countConnects_runCleanup]
  cases l1 <;> simp [countConnects, TransportCall.isConnectCall] <;>
    exact countConnects_runCleanup _

theorem duplicate_trigger_single_connect_call_witness :
    countConnects (runTerm initTermState
      [.connectTrigger false "s1", .connectTrigger false "s2"]).calls
      = countConnects initTermState.calls + 1 :=
  duplicate_trigger_single_connect_call initTermState false false "s1" "s2" rfl

/-- Invariant used for claim C9: once the latch is down the trace holds no
connect call, and it never holds more than one. -/
theorem termConnectInv_step (s : TermState) (e : TermEvent)
    (h1 : s.isConnectingRef = false → countConnects s.calls = 0)
    (h2 : countConnects s.calls ≤ 1) :
    ((step s e).isConnectingRef = false → countConnects (step s e).calls = 0) ∧
      countConnects (step s e).calls ≤ 1 := by
  cases e with
  | connectTrigger isLocal newId =>
    by_cases hl : s.isConnectingRef
    · constructor
      · intro hfalse
        simp [step, hl] at hfalse
      · simp [step, hl, countConnects_append, countConnects_runCleanup, h2]
    · have h0 : countConnects s.calls = 0 := h1 (by simpa using hl)
      constructor
      · intro hfalse
        simp [step, hl] at hfalse
      · simp [step, hl, countConnects_append, countConnects_runCleanup, h0]
        cases isLocal <;>
          simp [countConnects, List.countP, List.countP.go, TransportCall.isConnectCall]
  | connectResolve ok =>
    rcases hp : s.pendingConnect with _ | newId
    · simpa [step, hp] using ⟨h1, h2⟩
    · cases ok
      · simpa [step, hp] using ⟨h1, h2⟩
      · constructor
        · intro hfalse
          simp [step, hp] at hfalse ⊢
          rw [countConnects_append, h1 hfalse]
          simp [countConnects, List.countP, List.countP.go, TransportCall.isConnectCall]
        · simp [step, hp, countConnects_append]
          have : countConnects [TransportCall.ptyResize newId] = 0 := by
            simp [countConnects, List.countP, List.countP.go, TransportCall.isConnectCall]
          omega
  | ptyDisconnectEvent sid =>
    rcases hs : s.sessionId with _ | cur
    · simpa [step, hs] using ⟨h1, h2⟩
    · by_cases he : sid = cur <;> simpa [step, hs, he] using ⟨h1, h2⟩
  | unmount =>
    constructor
    · intro hfalse
      simp [step] at hfalse ⊢
      rw [countConnects_append, h1 hfalse, countConnects_runCleanup]
    · simp [step, countConnects_append, countConnects_runCleanup, h2]

theorem termConnectInv_run (evs : List TermEvent) :
    ∀ (s : TermState),
      (s.isConnectingRef = false → countConnects s.calls = 0) →
      countConnects s.calls ≤ 1 →
      countConnects (runTerm s evs).calls ≤ 1 := by
  induction evs with
  | nil => intro s _ h2; simpa [runTerm]
  | cons e rest ih =>
    intro s h1 h2
    have h := termConnectInv_step s e h1 h2
    simpa [runTerm] using ih (step s e) h.1 h.2

/-- Claim C9 (implicit): the `isConnectingRef` latch is set before the first
connect attempt and never reset — not on connect failure and not on a
`server` prop change — so over the whole lifetime of one Terminal component
instance at most one transport connect call is ever issued; a failed connect
cannot be retried without destroying the component. -/
theorem connect_latch_never_reset_at_most_one_connect :
    (∀ (s : TermState) (e : TermEvent),
      s.isConnectingRef = true → (step s e).isConnectingRef = true) ∧
    (∀ evs : List TermEvent,
      countConnects (runTerm initTermState evs).calls ≤ 1) := by
  constructor
  · intro s e h
    cases e with
    | connectTrigger isLocal newId => simp [step, h]
    | connectResolve ok =>
      rcases hp : s.pendingConnect with _ | newId
      · simpa [step, hp]
      · cases ok <;> simp [step, hp, h]
    | ptyDisconnectEvent sid =>
      rcases hs : s.sessionId with _ | cur
      · simpa [step, hs]
      · by_cases he : sid = cur <;> simp [step, hs, he, h]
    | unmount => simp [step, h]
  · intro evs
    exact termConnectInv_run evs initTermState (fun _ => rfl) (by simp [initTermState, countConnects])

theorem connect_latch_never_reset_at_most_one_connect_witness :
    (step (runTerm initTermState [.connectTrigger false "s1"]) (.connectResolve false)).isConnectingRef
      = true :=
  connect_latch_never_reset_at_most_one_connect.1
    (runTerm initTermState [.connectTrigger false "s1"]) (.connectResolve false) rfl

/-- Claim C6 (evaluation at the failing scenario): mount, connect
successfully (status `CONNECTED`, session `sess-1`), then tear the
component down.  The `[server]` effect's cleanup closure captured the
render-time `status`/`sessionId` (`DISCONNECTED`/`null`), so the unmount
issues no `pty_disconnect` at all — the complete transport trace is just
the connect and the post-connect resize — although the cleanup body run
against the live values would have issued `pty_disconnect("sess-1")` (last
conjunct). -/
theorem close_connected_session_issues_no_disconnect :
    (runTerm initTermState [.connectTrigger false "sess-1", .connectResolve true]).status
      = .CONNECTED ∧
    (runTerm initTermState [.connectTrigger false "sess-1", .connectResolve true]).sessionId
      = some "sess-1" ∧
    (runTerm initTermState
        [.connectTrigger false "sess-1", .connectResolve true, .unmount]).calls
      = [.ptyConnect "sess-1", .ptyResize "sess-1"] ∧
    TransportCall.ptyDisconnect "sess-1" ∉
      (runTerm initTermState
        [.connectTrigger false "sess-1", .connectResolve true, .unmount]).calls ∧
    runCleanup (some { status := .CONNECTED, sessionId := some "sess-1" })
      = [.ptyDisconnect "sess-1"] := by
  refine ⟨rfl, rfl, rfl, ?_, rfl⟩
  decide

/-! ## Claims about the AI gateway -/

/-- Claim C1: for every settings value and every behaviour of the provider
backends, `askAI` resolves to an `AIResponse` and never throws to its
caller; and when the dispatched provider call throws (with a non-empty
message `m`), the returned markdown is
`Error connecting to <provider>: <m>`. -/
theorem askAI_never_throws_and_wraps_errors :
    (∀ (query ctx : String) (settings : AppSettings) (outcome : ProviderOutcome),
      (askAI query ctx settings outcome).result.isOk = true) ∧
    (∀ (query ctx : String) (settings : AppSettings) (cfg : AIProviderConfig) (m : String),
      lookupProvider settings.providers settings.activeProvider = some cfg →
      (cfg.apiKey ≠ "" ∨ settings.activeProvider = "ollama") →
      settings.activeProvider ∈ knownProviderIds →
      m ≠ "" →
      (askAI query ctx settings (.throwMsg m)).result
        = .ok { markdown := .jstr ("Error connecting to " ++ settings.activeProvider ++ ": " ++ m)
                suggestedCommand := .undefinedV }) := by
  constructor
  · intro q c s o
    simp only [askAI]
    rcases hL : lookupProvider s.providers s.activeProvider with _ | cfg
    · simp [JsResult.isOk]
    · simp only [Option.isNone_some, Option.map_some', Option.getD_some, Bool.false_or]
      split
      · rfl
      · split <;> cases o <;> rfl
  · intro q c s cfg m hL hk hmem hm
    simp only [askAI, hL, Option.isNone_some, Option.map_some', Option.getD_some, Bool.false_or]
    have hg : (!jsTruthy (.jstr cfg.apiKey) && s.activeProvider != "ollama") = false := by
      rcases hk with h | h
      · simp [jsTruthy, h]
      · simp [h]
    rw [hg]
    simp only [Bool.false_eq_true, if_false]
    simp only [knownProviderIds, List.mem_cons, List.not_mem_nil, or_false] at hmem
    rcases hmem with h | h | h | h | h | h <;>
      · rw [h]
        simp [providerCall, jsCatch, errMessage, hm]

theorem askAI_never_throws_and_wraps_errors_witness :
    (askAI "test query" "test context" { mockSettings with activeProvider := "ollama" }
        (.throwMsg "Network error")).result
      = .ok { markdown := .jstr "Error connecting to ollama: Network error"
              suggestedCommand := .undefinedV } :=
  askAI_never_throws_and_wraps_errors.2 "test query" "test context"
    { mockSettings with activeProvider := "ollama" }
    { enabled := true, apiKey := "", baseUrl := some "http://localhost:11434", model := "llama3" }
    "Network error" rfl (Or.inr rfl) (by decide) (by decide)

/-- Claim C2 (evaluation at the failing input): with `activeProvider:
"unknown"` and the test fixture's providers record (which has no `unknown`
entry), `askAI` returns the missing-API-key configuration error, not the
literal `"Unknown provider selected."` that the claim — and the repo's own
test (`tests/aiService.test.ts`, "should return error message for unknown
provider") — expects: the credential guard runs before the `switch` whose
default produces the unknown-provider response, and `providers["unknown"]`
is `undefined`, so the guard fires first. -/
theorem askAI_unknown_provider_hits_config_error_first :
    (askAI "test query" "test context" { mockSettings with activeProvider := "unknown" }
        (.ok { markdown := .jstr "unused", suggestedCommand := .undefinedV })).result
      = .ok { markdown := .jstr (configErrorMarkdown "unknown"), suggestedCommand := .undefinedV } ∧
    configErrorMarkdown "unknown"
      = "Configuration Error: Missing API Key for unknown. Please check Settings." ∧
    configErrorMarkdown "unknown" ≠ "Unknown provider selected." :=
  ⟨rfl, rfl, by decide⟩

/-- Claim C3: for each of the five credentialed provider identifiers, a
settings value whose active provider config is absent or has an empty
`apiKey` makes `askAI` return the configuration-error response — whose
markdown contains the `Configuration Error: Missing API Key` marker and the
provider identifier — with no transport call; ollama with an empty key is
exempt and its transport is invoked. -/
theorem missing_api_key_no_network_call :
    (∀ (q c : String) (settings : AppSettings) (o : ProviderOutcome),
      settings.activeProvider ∈ ["gemini", "openai", "grok", "anthropic", "openrouter"] →
      (lookupProvider settings.providers settings.activeProvider = none ∨
        (∃ cfg, lookupProvider settings.providers settings.activeProvider = some cfg ∧
          cfg.apiKey = "")) →
      (askAI q c settings o).result
          = .ok { markdown := .jstr (configErrorMarkdown settings.activeProvider)
                  suggestedCommand := .undefinedV } ∧
        (askAI q c settings o).net = [] ∧
        containsSub (configErrorMarkdown settings.activeProvider)
          "Configuration Error: Missing API Key" = true ∧
        containsSub (configErrorMarkdown settings.activeProvider)
          settings.activeProvider = true) ∧
    (∀ (q c : String) (settings : AppSettings) (o : ProviderOutcome) (cfg : AIProviderConfig),
      settings.activeProvider = "ollama" →
      lookupProvider settings.providers settings.activeProvider = some cfg →
      cfg.apiKey = "" →
      (askAI q c settings o).net = ["ollama"]) := by
  constructor
  · intro q c s o hmem hcfg
    simp only [List.mem_cons, List.not_mem_nil, or_false] at hmem
    have hno : (s.activeProvider != "ollama") = true := by
      rcases hmem with h | h | h | h | h <;> rw [h] <;> decide
    have hres : askAI q c s o
        = { result := .ok { markdown := .jstr (configErrorMarkdown s.activeProvider)
                            suggestedCommand := .undefinedV }
            net := [] } := by
      rcases hcfg with hL | ⟨cfg, hL, hkey⟩
      · simp [askAI, hL]
      · simp [askAI, hL, jsTruthy, hkey, hno]
    refine ⟨by rw [hres], by rw [hres], ?_, ?_⟩
    · rcases hmem with h | h | h | h | h <;> rw [h] <;> decide
    · rcases hmem with h | h | h | h | h <;> rw [h] <;> decide
  · intro q c s o cfg hap hL hkey
    rw [hap] at hL
    cases o <;> simp [askAI, hap, hL, hkey, jsTruthy, providerCall, jsCatch]

theorem missing_api_key_no_network_call_witness :
    ((askAI "test query" "test context" { mockSettings with activeProvider := "openai" }
        (.ok { markdown := .jstr "unused", suggestedCommand := .undefinedV })).result
      = .ok { markdown := .jstr (configErrorMarkdown "openai"), suggestedCommand := .undefinedV }) ∧
    ((askAI "test query" "test context" { mockSettings with activeProvider := "ollama" }
        (.ok { markdown := .jstr "ok", suggestedCommand := .undefinedV })).net = ["ollama"]) :=
  ⟨(missing_api_key_no_network_call.1 "test query" "test context"
      { mockSettings with activeProvider := "openai" }
      (.ok { markdown := .jstr "unused", suggestedCommand := .undefinedV })
      (by decide)
      (Or.inr ⟨{ enabled := true, apiKey := "", baseUrl := none, model := "gpt-4-turbo-preview" },
        rfl, rfl⟩)).1,
   missing_api_key_no_network_call.2 "test query" "test context"
     { mockSettings with activeProvider := "ollama" }
     (.ok { markdown := .jstr "ok", suggestedCommand := .undefinedV })
     { enabled := true, apiKey := "", baseUrl := some "http://localhost:11434", model := "llama3" }
     rfl rfl rfl⟩

/-- Claim C10 (implicit): `autoCorrectAI` performs no missing-credential
precondition check — with any provider config present (even with an empty
`apiKey`) the adapter is dispatched and its success reply is returned — and
for every error thrown anywhere in its provider call path (a thrown adapter
call, or the `TypeError` from reading fields of an `undefined` provider
config) it returns exactly
`{ markdown: "Unable to analyze command.", suggestedCommand: <the input command> }`. -/
theorem autoCorrect_no_credential_check_echoes_command :
    (∀ (cmd : String) (settings : AppSettings) (r : AIResponse) (cfg : AIProviderConfig),
      settings.activeProvider ∈ knownProviderIds →
      lookupProvider settings.providers settings.activeProvider = some cfg →
      (autoCorrectAI cmd settings (.ok r)).result = .ok r ∧
        (autoCorrectAI cmd settings (.ok r)).net = [settings.activeProvider]) ∧
    (∀ (cmd : String) (settings : AppSettings) (o : ProviderOutcome) (m : String),
      settings.activeProvider ∈ knownProviderIds →
      (lookupProvider settings.providers settings.activeProvider = none ∨ o = .throwMsg m) →
      (autoCorrectAI cmd settings o).result
        = .ok { markdown := .jstr "Unable to analyze command."
                suggestedCommand := .jstr cmd }) := by
  constructor
  · intro cmd s r cfg hmem hL
    simp only [knownProviderIds, List.mem_cons, List.not_mem_nil, or_false] at hmem
    rcases hmem with h | h | h | h | h | h <;>
      · rw [h] at hL
        simp [autoCorrectAI, h, hL, providerCall, jsCatch]
  · intro cmd s o m hmem hcase
    simp only [knownProviderIds, List.mem_cons, List.not_mem_nil, or_false] at hmem
    rcases hcase with hL | ho
    · rcases hmem with h | h | h | h | h | h <;>
        · rw [h] at hL
          cases o <;> simp [autoCorrectAI, h, hL, providerCall, jsCatch]
    · subst ho
      rcases hmem with h | h | h | h | h | h <;>
        · rcases hL : lookupProvider s.providers s.activeProvider with _ | cfg <;>
            · rw [h] at hL
              simp [autoCorrectAI, h, hL, providerCall, jsCatch]

theorem autoCorrect_no_credential_check_echoes_command_witness :
    ((autoCorrectAI "ls -la" { mockSettings with activeProvider := "ollama" }
        (.ok { markdown := .jstr "The command is correct", suggestedCommand := .jstr "ls -la" })).result
      = .ok { markdown := .jstr "The command is correct", suggestedCommand := .jstr "ls -la" }) ∧
    ((autoCorrectAI "invalid command" { mockSettings with activeProvider := "ollama" }
        (.throwMsg "API error")).result
      = .ok { markdown := .jstr "Unable to analyze command."
              suggestedCommand := .jstr "invalid command" }) :=
  ⟨(autoCorrect_no_credential_check_echoes_command.1 "ls -la"
      { mockSettings with activeProvider := "ollama" }
      { markdown := .jstr "The command is correct", suggestedCommand := .jstr "ls -la" }
      { enabled := true, apiKey := "", baseUrl := some "http://localhost:11434", model := "llama3" }
      (by decide) rfl).1,
   autoCorrect_no_credential_check_echoes_command.2 "invalid command"
     { mockSettings with activeProvider := "ollama" }
     (.throwMsg "API error") "API error" (by decide) (Or.inr rfl)⟩

/-! ## Claims about the session registry -/

theorem activeOk_selectServer (st : AppState) (server : Server) (newId : String) :
    activeOk (handleSelectServer st server newId) = true := by
  simp [handleSelectServer, activeOk, List.any_append]

theorem activeOk_close (st : AppState) (id : String) (h : activeOk st = true) :
    activeOk (handleCloseSession st id) = true := by
  unfold handleCloseSession
  rcases hidx : st.sessions.findIdx? (fun s => s.id == id) with _ | idx
  · simpa only [hidx] using h
  · simp only [hidx]
    by_cases hact : st.activeSessionId = some id
    · rw [if_pos hact]
      by_cases hlen : (st.sessions.filter (fun s => s.id != id)).length > 0
      · rw [if_pos hlen]
        rcases hget : (st.sessions.filter (fun s => s.id != id)).get? (idx - 1) with _ | s
        · rfl
        · have hmem : s ∈ st.sessions.filter (fun t => t.id != id) := List.get?_mem hget
          simp only [activeOk, List.any_eq_true]
          exact ⟨s, hmem, by simp⟩
      · rw [if_neg hlen]
        rfl
    · rw [if_neg hact]
      rcases ha : st.activeSessionId with _ | a
      · rfl
      · rw [activeOk, ha] at h
        simp only [List.any_eq_true] at h
        obtain ⟨x, hx, hxa⟩ := h
        have hxid : x.id = a := by simpa using hxa
        have hne : a ≠ id := by
          intro hEq
          exact hact (by rw [ha, hEq])
        simp only [activeOk, List.any_eq_true]
        refine ⟨x, List.mem_filter.mpr ⟨hx, ?_⟩, hxa⟩
        simp [hxid, hne]

theorem activeOk_select (st : AppState) (id : String)
    (hv : st.sessions.any (fun s => s.id == id) = true) :
    activeOk (handleSelectSession st id) = true := by
  simp [handleSelectSession, activeOk, hv]

theorem activeOk_run (evs : List RegistryEvent) :
    ∀ st : AppState, activeOk st = true → validEvents st evs = true →
      activeOk (runApp st evs) = true := by
  induction evs with
  | nil => intro st h _; simpa [runApp]
  | cons e rest ih =>
    intro st h hv
    cases e with
    | selectServer server newId =>
      simp only [validEvents, Bool.and_eq_true] at hv
      exact ih _ (activeOk_selectServer st server newId) hv.2
    | close id =>
      simp only [validEvents, Bool.and_eq_true] at hv
      exact ih _ (activeOk_close st id h) hv.2
    | select id =>
      simp only [validEvents, Bool.and_eq_true] at hv
      exact ih _ (activeOk_select st id hv.1) hv.2

/-- Claim C8: after every UI-realisable sequence of registry operations
(open a session via `handleSelectServer`, close one via
`handleCloseSession`, select one via the `TabBar`) starting from the empty
registry, `activeSessionId` is `null` or the id of a session currently in
the list; and closing the active session repoints it to the remaining
session at index `idx - 1` (the one to its left, or the first) or to `null`
when none remain. -/
theorem registry_active_pointer_always_live :
    (∀ evs : List RegistryEvent,
      validEvents initAppState evs = true →
      activeOk (runApp initAppState evs) = true) ∧
    (∀ (st : AppState) (id : String) (idx : Nat),
      st.activeSessionId = some id →
      st.sessions.findIdx? (fun s => s.id == id) = some idx →
      (handleCloseSession st id).activeSessionId
        = (if (handleCloseSession st id).sessions.length > 0 then
            ((handleCloseSession st id).sessions.get? (idx - 1)).map Session.id
          else none)) := by
  constructor
  · intro evs hv
    exact activeOk_run evs initAppState rfl hv
  · intro st id idx hact hidx
    simp only [handleCloseSession, hidx, hact, if_pos rfl]
    by_cases hlen : (st.sessions.filter (fun s => s.id != id)).length > 0
    · rcases hget : (st.sessions.filter (fun s => s.id != id)).get? (idx - 1) with _ | s <;>
        simp [hlen, hget]
    · simp [hlen]

theorem registry_active_pointer_always_live_witness :
    activeOk (runApp initAppState
      [.selectServer { id := "srv1", name := "alpha", isLocal := false } "s1",
       .selectServer { id := "srv2", name := "beta", isLocal := true } "s2",
       .select "s1",
       .close "s1",
       .close "s2"]) = true :=
  registry_active_pointer_always_live.1
    [.selectServer { id := "srv1", name := "alpha", isLocal := false } "s1",
     .selectServer { id := "srv2", name := "beta", isLocal := true } "s2",
     .select "s1",
     .close "s1",
     .close "s2"] (by decide)

/-! ## Helper lemmas for the Ollama normalizer claim -/

theorem alpha_ne (c w : Char) (h : isAsciiAlpha c = true)
    (hw : isAsciiAlpha w = false) : c ≠ w := by
  intro hEq
  rw [hEq, hw] at h
  cases h

theorem alpha_not_ws (c : Char) (h : isAsciiAlpha c = true) :
    isTrimWs c = false ∧ isJsonWs c = false := by
  have hne : ∀ w : Char, isAsciiAlpha w = false → c ≠ w := fun w hw => alpha_ne c w h hw
  constructor <;>
    simp [isTrimWs, isRegexWs, isJsonWs,
      hne ' ' (by decide), hne '\t' (by decide), hne '\n' (by decide),
      hne '\r' (by decide), hne '\x0b' (by decide), hne '\x0c' (by decide)]

theorem alpha_not_digit (c : Char) (h : isAsciiAlpha c = true) :
    isDigitChar c = false := by
  unfold isAsciiAlpha at h
  unfold isDigitChar
  simp only [Bool.or_eq_true, Bool.and_eq_true, decide_eq_true_eq] at h
  by_contra hb
  simp only [Bool.and_eq_true, decide_eq_true_eq, Bool.not_eq_false] at hb
  rcases h with ⟨h1, _⟩ | ⟨h1, _⟩ <;> exact absurd (le_trans h1 hb.2) (by decide)

theorem validateParsed_not_obj (v : JsVal) (h : ∀ fields, v ≠ .jobj fields) :
    validateParsed (some v) = none := by
  cases v <;> first
    | rfl
    | exact absurd rfl (h _)

theorem findSubstrIdx_none (p : Char) (ps l : List Char) (h : p ∉ l) :
    findSubstrIdx (p :: ps) l = none := by
  induction l with
  | nil => rfl
  | cons c rest ih =>
    have hcp : c ≠ p := fun hEq => h (by rw [← hEq]; exact List.mem_cons_self c rest)
    have hrest : p ∉ rest := fun hm => h (List.mem_cons_of_mem c hm)
    rw [findSubstrIdx]
    have hpm : prefixMatches (c :: rest) (p :: ps) = false := by
      rw [prefixMatches]
      simp [hcp]
    rw [hpm]
    simp [ih hrest]

theorem removeAllAux_not_mem (p : Char) (ps : List Char) :
    ∀ (fuel : Nat) (l : List Char), p ∉ l →
      removeAllAux fuel l (p :: ps) = l := by
  intro fuel
  induction fuel with
  | zero => intro l _; rw [removeAllAux]
  | succ n ih =>
    intro l h
    cases l with
    | nil => rw [removeAllAux]
    | cons c rest =>
      have hcp : c ≠ p := fun hEq => h (by rw [← hEq]; exact List.mem_cons_self c rest)
      have hrest : p ∉ rest := fun hm => h (List.mem_cons_of_mem c hm)
      rw [removeAllAux]
      have hpm : prefixMatches (c :: rest) (p :: ps) = false := by
        rw [prefixMatches]
        simp [hcp]
      rw [if_neg (by simp [hpm])]
      rw [ih rest hrest]

theorem removeAll_not_mem (l : List Char) (p : Char) (ps : List Char) (h : p ∉ l) :
    removeAll l (p :: ps) = l :=
  removeAllAux_not_mem p ps l.length l h

theorem parseNum_none (c : Char) (t : List Char)
    (hd : isDigitChar c = false) (hm : c ≠ '-') :
    parseNum (c :: t) = none := by
  unfold parseNum
  split
  · next rest heq =>
    injection heq with h1 _
    exact absurd h1 hm
  · next l hne =>
    unfold parseDigits
    simp [List.takeWhile_cons, hd]

theorem strategy1_none_of_alpha_head (c : Char) (t : List Char)
    (halpha : isAsciiAlpha c = true) (hbrace : c ≠ '{') :
    validateParsed (jsonParse (c :: t)) = none := by
  have hws : isJsonWs c = false := (alpha_not_ws c halpha).2
  have hc2 : c ≠ '[' := alpha_ne c '[' halpha (by decide)
  have hc3 : c ≠ '"' := alpha_ne c '"' halpha (by decide)
  have hdig : isDigitChar c = false := alpha_not_digit c halpha
  have hneg : c ≠ '-' := alpha_ne c '-' halpha (by decide)
  have hskip : skipWs (c :: t) = c :: t := by simp [skipWs, hws]
  by_cases hT : prefixMatches (c :: t) ['t', 'r', 'u', 'e'] = true
  · have hpv : parseVal ((c :: t).length + 1) (c :: t)
        = some (.jbool true, (c :: t).drop 4) := by
      rw [parseVal]
      rw [if_neg hbrace, if_neg hc2, if_neg hc3, if_pos hT]
    rw [jsonParse, hskip, hpv]
    split
    · next v rest heq =>
      injection heq with hpair
      cases hpair
      split <;> rfl
    · next heq => exact Option.noConfusion heq
  · by_cases hF : prefixMatches (c :: t) ['f', 'a', 'l', 's', 'e'] = true
    · have hpv : parseVal ((c :: t).length + 1) (c :: t)
          = some (.jbool false, (c :: t).drop 5) := by
        rw [parseVal]
        rw [if_neg hbrace, if_neg hc2, if_neg hc3, if_neg (by simp [hT]), if_pos hF]
      rw [jsonParse, hskip, hpv]
      split
      · next v rest heq =>
        injection heq with hpair
        cases hpair
        split <;> rfl
      · next heq => exact Option.noConfusion heq
    · by_cases hN : prefixMatches (c :: t) ['n', 'u', 'l', 'l'] = true
      · have hpv : parseVal ((c :: t).length + 1) (c :: t)
            = some (.jnull, (c :: t).drop 4) := by
          rw [parseVal]
          rw [if_neg hbrace, if_neg hc2, if_neg hc3, if_neg (by simp [hT]),
            if_neg (by simp [hF]), if_pos hN]
        rw [jsonParse, hskip, hpv]
        split
        · next v rest heq =>
          injection heq with hpair
          cases hpair
          split <;> rfl
        · next heq => exact Option.noConfusion heq
      · have hpv : parseVal ((c :: t).length + 1) (c :: t) = none := by
          rw [parseVal]
          rw [if_neg hbrace, if_neg hc2, if_neg hc3, if_neg (by simp [hT]),
            if_neg (by simp [hF]), if_neg (by simp [hN])]
          exact parseNum_none c t hdig hneg
        rw [jsonParse, hskip, hpv]
        rfl

/-- Claim C7 (amended): for every raw Ollama reply that is non-empty,
already whitespace-trimmed, begins with an ASCII letter, and contains no
`{` and no backtick (plain prose with no JSON object and no code fence),
`callOllama`'s fallback returns `{ markdown: <that prose, unchanged> }`
with no `suggestedCommand`. -/
theorem ollama_plain_prose_fallback (prompt : String) (config : AIProviderConfig)
    (ok : Bool) (status : Nat) (statusText : String)
    (raw : String) (c : Char) (t : List Char)
    (hok : ok = true)
    (hdata : raw.data = c :: t)
    (halpha : isAsciiAlpha c = true)
    (hbrace : '{' ∉ raw.data)
    (hfence : '`' ∉ raw.data)
    (htrim : trimChars raw.data = raw.data) :
    callOllama prompt config (.resp ok status statusText raw)
      = .ok { markdown := .jstr raw, suggestedCommand := .undefinedV } := by
  subst hok
  have hne : raw ≠ "" := by
    intro h
    rw [h] at hdata
    exact List.noConfusion hdata
  rw [hdata] at hbrace hfence htrim
  have hcb : c ≠ '{' := fun hEq => hbrace (by rw [← hEq]; exact List.mem_cons_self c t)
  have h1 := strategy1_none_of_alpha_head c t halpha hcb
  have h2 : codeBlockMatch (c :: t) = none := by
    unfold codeBlockMatch
    rw [findSubstrIdx_none '`' ['`', '`'] _ hfence]
  have h3 : markdownSpanMatch (c :: t) = none := by
    unfold markdownSpanMatch
    rw [findSubstrIdx_none '{' [] _ hbrace]
  have h4 : stripLeadingProse (c :: t) = c :: t := by
    simp [stripLeadingProse, List.findIdx?_cons, halpha]
  have h5 := removeAll_not_mem (c :: t) '`' ['`', '`', 'j', 's', 'o', 'n'] hfence
  have h6 := removeAll_not_mem (c :: t) '`' ['`', '`'] hfence
  have hmkne : (⟨c :: t⟩ : String) ≠ "" := by
    intro h
    have h' : c :: t = ([] : List Char) := congrArg String.data h
    exact List.noConfusion h'
  have hfall : ollamaFallback (c :: t)
      = { markdown := .jstr ⟨c :: t⟩, suggestedCommand := .undefinedV } := by
    simp only [ollamaFallback, h4, h5, h6, htrim]
    simp
  simp only [callOllama, Bool.not_true, Bool.false_eq_true, if_false, hdata, htrim]
  rw [if_neg (by simp [hne, hmkne])]
  simp only [h1, h2, h3, Option.none_bind, hfall]
  rw [← hdata]

theorem ollama_plain_prose_fallback_witness :
    callOllama "p"
        { enabled := true, apiKey := "", baseUrl := some "http://localhost:11434"
          model := "llama3" }
        (.resp true 200 "OK" "This is a plain text response without JSON")
      = .ok { markdown := .jstr "This is a plain text response without JSON"
              suggestedCommand := .undefinedV } :=
  ollama_plain_prose_fallback "p"
    { enabled := true, apiKey := "", baseUrl := some "http://localhost:11434"
      model := "llama3" }
    true 200 "OK" "This is a plain text response without JSON"
    'T' "his is a plain text response without JSON".data
    rfl rfl (by decide) (by decide) (by decide) (by decide)

/-- Claim C7 counterexample: the reply
`"(see the manual) run make install"` is non-empty plain prose containing
no JSON object and no code fence, yet the fallback does not return it
unchanged: the leading `(` — everything before the first `{` or ASCII
letter — is stripped by `replace(/^.*?(?=\{|[A-Za-z])/s, '')`. -/
theorem ollama_plain_prose_fallback_counterexample :
    callOllama "p"
        { enabled := true, apiKey := "", baseUrl := some "http://localhost:11434"
          model := "llama3" }
        (.resp true 200 "OK" "(see the manual) run make install")
      = .ok { markdown := .jstr "see the manual) run make install"
              suggestedCommand := .undefinedV } ∧
    "see the manual) run make install" ≠ "(see the manual) run make install" :=
  ⟨by rfl, by decide⟩
